import Mathlib

/-!
Shallow embedding of the session/token machinery of the mobile-auth backend: the lifecycle and
verification-code state machine.

Rows of the three tables (`users`, `sessions`, `verification_codes` from
`src/db/schema.ts`) are Lean structures; the store is a triple of row lists.
Timestamps are `Nat` (milliseconds).  Randomly generated values
(`gen_random_uuid()` row ids, `randomBytes(40)` hex-encoded refresh
tokens, the 6-digit email code) enter each operation as explicit parameters.
A signed JWT is modelled as a structure carrying its payload, issue time,
expiry and signing secret; since the JWT encoding is injective for a fixed
algorithm, structural equality of `AccessToken` values models string equality
of encoded tokens (as used by the in-memory blacklist `Set<string>`).
Fallible operations return `Except AuthError _` together with the store that
results from the writes already executed before any throw (the code runs no
transactions, so earlier writes are not rolled back).
-/

namespace MobileAuth

/-- Error codes raised by the embedded operations, named after the `code`
strings passed to `createError` in the source. -/
inductive AuthError where
  | invalidTokenPayload
  | tokenRevoked
  | tokenExpired
  | invalidToken
  | invalidRefreshToken
  | refreshTokenExpired
  | refreshTokenRequired
  | userNotAuthenticated
  | invalidVerificationCode
deriving DecidableEq, Repr

/-- JWT claims: `TokenPayload` from `src/services/jwt.service.ts`
(`userId`, `email`, plus an index signature for extra claims, modelled as an
association list). -/
structure TokenPayload where
  userId : String
  email : String
  extra : List (String × String) := []
deriving DecidableEq, Repr

/-- A signed access token: payload plus the issue/expiry timestamps and the
secret that `jsonwebtoken.sign` embeds in / signs the encoded string with. -/
structure AccessToken where
  payload : TokenPayload
  iat : Nat
  exp : Nat
  secret : String
deriving DecidableEq, Repr

/-- Device metadata captured by `getDeviceInfo` in
`src/controllers/auth.controller.ts` (three request headers). -/
structure DeviceInfo where
  userAgent : Option String := none
  platform : Option String := none
  mobile : Option String := none
deriving DecidableEq, Repr

/-- A `users` row (`src/db/schema.ts`): `login_count` is a nullable integer
column with default 0, `last_login_at` is nullable. -/
structure User where
  id : String
  googleId : Option String := none
  email : String
  name : String
  lastLoginAt : Option Nat := none
  loginCount : Option Int := none
  createdAt : Nat := 0
  updatedAt : Nat := 0
deriving DecidableEq, Repr

/-- A `sessions` row (`src/db/schema.ts`). -/
structure Session where
  id : String
  userId : String
  refreshToken : String
  expiresAt : Nat
  deviceInfo : Option DeviceInfo := none
  lastUsedAt : Option Nat := none
  ipAddress : Option String := none
  createdAt : Nat := 0
deriving DecidableEq, Repr

/-- A `verification_codes` row (`src/db/schema.ts`). -/
structure VerificationCode where
  id : String
  email : String
  code : String
  expiresAt : Nat
  used : Bool := false
  createdAt : Nat := 0
deriving DecidableEq, Repr

/-- The relational store: the three tables, each as its list of rows. -/
structure Store where
  users : List User := []
  sessions : List Session := []
  verificationCodes : List VerificationCode := []
deriving DecidableEq, Repr

/-- Successful token response of the OAuth-callback and refresh endpoints. -/
structure TokenPair where
  accessToken : AccessToken
  refreshToken : String
deriving DecidableEq, Repr

/-- Successful response body of `verifyEmailCode` (`data`: user + tokens). -/
structure EmailLoginOk where
  user : User
  accessToken : AccessToken
  refreshToken : String
deriving DecidableEq, Repr

/-- Access-token lifetime, `JWT_EXPIRES_IN` of 15 minutes, in milliseconds. -/
def accessTokenLifetimeMs : Nat := 15 * 60 * 1000

/-- The `getRefreshTokenExpiryDate` offset: 7 days, in milliseconds. -/
def refreshTokenLifetimeMs : Nat := 7 * 24 * 60 * 60 * 1000

/-- Verification codes expire 15 minutes after creation
(`src/services/email.service.ts`). -/
def verificationCodeLifetimeMs : Nat := 15 * 60 * 1000

namespace JWTService

/-- Source `blacklistToken`: `this.tokenBlacklist.add(token)`. -/
def blacklistToken (bl : List AccessToken) (t : AccessToken) : List AccessToken :=
  t :: bl

/-- Source `isTokenBlacklisted`: `this.tokenBlacklist.has(token)`. -/
def isTokenBlacklisted (bl : List AccessToken) (t : AccessToken) : Bool :=
  decide (t ∈ bl)

/-- Source `signAccessToken`: rejects a payload with missing (empty, hence falsy)
`userId` or `email` with `INVALID_TOKEN_PAYLOAD`, otherwise signs a token
expiring `JWT_EXPIRES_IN` after `now`. -/
def signAccessToken (secret : String) (now : Nat) (p : TokenPayload) :
    Except AuthError AccessToken :=
  if p.userId = "" ∨ p.email = "" then .error .invalidTokenPayload
  else .ok { payload := p, iat := now, exp := now + accessTokenLifetimeMs, secret := secret }

/-- Source `verifyAccessToken`: first consults the blacklist (`TOKEN_REVOKED`), then
`jsonwebtoken.verify` checks the signature (`INVALID_TOKEN`) and expiry
(`TOKEN_EXPIRED`, thrown when `now >= exp`), then the decoded claims are
checked non-empty (`INVALID_TOKEN_PAYLOAD`). -/
def verifyAccessToken (bl : List AccessToken) (secret : String) (now : Nat)
    (t : AccessToken) : Except AuthError TokenPayload :=
  if isTokenBlacklisted bl t then .error .tokenRevoked
  else if t.secret ≠ secret then .error .invalidToken
  else if t.exp ≤ now then .error .tokenExpired
  else if t.payload.userId = "" ∨ t.payload.email = "" then .error .invalidTokenPayload
  else .ok t.payload

/-- Source `getRefreshTokenExpiryDate`: now plus 7 days. -/
def getRefreshTokenExpiry (now : Nat) : Nat :=
  now + refreshTokenLifetimeMs

end JWTService

namespace EmailService

/-- The `where` clause of `verifyCode`:
`and(eq(email), eq(code), eq(used, false), gt(expiresAt, now))`. -/
def vcMatches (email code : String) (now : Nat) (r : VerificationCode) : Bool :=
  r.email == email && r.code == code && r.used == false && decide (now < r.expiresAt)

/-- Source `verifyCode`: select the first matching row (`limit 1`); on no match
return false with no writes; on match set `used = true` on the row with that
id and return true. -/
def verifyCode (codes : List VerificationCode) (email code : String) (now : Nat) :
    List VerificationCode × Bool :=
  match (codes.filter (vcMatches email code now)).head? with
  | none => (codes, false)
  | some r =>
      (codes.map (fun x => if x.id == r.id then { x with used := true } else x), true)

/-- Source `sendVerificationCode`: inserts a fresh code row expiring 15 minutes from
now, then dispatches the email (external; no further store effect), returning
the code. -/
def sendVerificationCode (codes : List VerificationCode) (email : String)
    (freshId code : String) (now : Nat) : List VerificationCode × String :=
  (codes ++ [{ id := freshId, email := email, code := code,
               expiresAt := now + verificationCodeLifetimeMs, used := false,
               createdAt := now }], code)

/-- Source `cleanupExpiredCodes`: delete all rows with `expiresAt < now`. -/
def cleanupExpiredCodes (codes : List VerificationCode) (now : Nat) :
    List VerificationCode :=
  codes.filter (fun r => !(decide (r.expiresAt < now)))

end EmailService

namespace AuthController

/-- Models the split of the email at the `@` sign taking the first part: the
characters before the first `@` (the whole string when there is none). -/
def emailLocalPart (email : String) : String :=
  String.mk (email.toList.takeWhile (fun ch => ch ≠ '@'))

/-- Source `googleCallback`, from the point where the external OAuth exchange has
produced the federated identity `(sub, email, name)`: find-or-create the user
by email, bump the login stats, sign an access token, generate and persist a
session row holding the refresh token.  `freshUserId`/`freshSessionId` are
the store-generated uuids and `freshRefreshToken` the generated token. -/
def googleCallback (secret : String) (st : Store) (sub : String) (email : String)
    (name : Option String) (now : Nat) (freshUserId freshSessionId : String)
    (freshRefreshToken : String) (dev : Option DeviceInfo) (ip : Option String) :
    Store × Except AuthError TokenPair :=
  let found := (st.users.filter (fun u => u.email == email)).head?
  let stUser : Store × User :=
    match found with
    | none =>
        let u : User :=
          { id := freshUserId, googleId := some sub, email := email,
            name := name.getD "", lastLoginAt := some now, loginCount := some 1,
            createdAt := now, updatedAt := now }
        ({ st with users := st.users ++ [u] }, u)
    | some u0 =>
        let upd := fun (x : User) =>
          if x.id == u0.id then
            { x with lastLoginAt := some now, loginCount := x.loginCount.map (· + 1) }
          else x
        ({ st with users := st.users.map upd }, upd u0)
  let st1 := stUser.1
  let user := stUser.2
  match JWTService.signAccessToken secret now { userId := user.id, email := user.email } with
  | .error e => (st1, .error e)
  | .ok tok =>
      let sess : Session :=
        { id := freshSessionId, userId := user.id, refreshToken := freshRefreshToken,
          expiresAt := JWTService.getRefreshTokenExpiry now, deviceInfo := dev,
          lastUsedAt := some now, ipAddress := ip, createdAt := now }
      ({ st1 with sessions := st1.sessions ++ [sess] },
       .ok { accessToken := tok, refreshToken := freshRefreshToken })

/-- The `update(sessions).set({...}).where(eq(sessions.refreshToken, presented))`
of the refresh path, applied to one row. -/
def rotateSession (presented newTok : String) (now : Nat) (dev : Option DeviceInfo)
    (ip : Option String) (x : Session) : Session :=
  if x.refreshToken == presented then
    { x with refreshToken := newTok, expiresAt := JWTService.getRefreshTokenExpiry now,
             lastUsedAt := some now, deviceInfo := dev, ipAddress := ip }
  else x

/-- The session lookup of the refresh path:
`select({session, user}).from(sessions).where(eq(sessions.refreshToken, presented))
.innerJoin(users, eq(users.id, sessions.userId))`, destructured to its first
row. -/
def refreshLookup (st : Store) (presented : String) : Option (Session × User) :=
  ((st.sessions.filter (fun s => s.refreshToken == presented)).filterMap
    (fun s => (st.users.find? (fun u => u.id == s.userId)).map (fun u => (s, u)))).head?

/-- The `refreshToken` endpoint: requires a non-empty token, looks up the session
joined with its user by exact token match, fails `INVALID_REFRESH_TOKEN` when
no row matches and `REFRESH_TOKEN_EXPIRED` when `now > expiresAt` (strict
JavaScript `Date` comparison), otherwise signs a new access token and rotates
the session row in place. -/
def refreshTokenOp (secret : String) (st : Store) (presented : String) (now : Nat)
    (freshRefreshToken : String) (dev : Option DeviceInfo) (ip : Option String) :
    Store × Except AuthError TokenPair :=
  if presented = "" then (st, .error .refreshTokenRequired)
  else
    match refreshLookup st presented with
    | none => (st, .error .invalidRefreshToken)
    | some su =>
        if now > su.1.expiresAt then (st, .error .refreshTokenExpired)
        else
          match JWTService.signAccessToken secret now
              { userId := su.2.id, email := su.2.email } with
          | .error e => (st, .error e)
          | .ok tok =>
              ({ st with sessions :=
                   st.sessions.map (rotateSession presented freshRefreshToken now dev ip) },
               .ok { accessToken := tok, refreshToken := freshRefreshToken })

/-- The `logout` endpoint: requires an authenticated caller (`req.user?.userId`
truthy), blacklists the presented access token when one is attached, then
deletes every session row of that user. -/
def logout (st : Store) (bl : List AccessToken) (authUserId : Option String)
    (atk : Option AccessToken) :
    Store × List AccessToken × Except AuthError Unit :=
  match authUserId with
  | none => (st, bl, .error .userNotAuthenticated)
  | some uid =>
      if uid = "" then (st, bl, .error .userNotAuthenticated)
      else
        let bl1 := match atk with
          | some t => JWTService.blacklistToken bl t
          | none => bl
        ({ st with sessions := st.sessions.filter (fun s => !(s.userId == uid)) },
         bl1, .ok ())

/-- The `verifyEmailCode` endpoint: consume the verification code, find-or-create
the user by email (email prefix as default name), bump login stats, sign the
tokens and return them.  Note: this path generates a refresh token but
inserts no session row, and the returned `user` in the existing-user branch
is the pre-update row, both exactly as in the source. -/
def verifyEmailCode (secret : String) (st : Store) (email code : String) (now : Nat)
    (freshUserId freshRefreshToken : String) : Store × Except AuthError EmailLoginOk :=
  let vc := EmailService.verifyCode st.verificationCodes email code now
  let st1 := { st with verificationCodes := vc.1 }
  if !vc.2 then (st1, .error .invalidVerificationCode)
  else
    let found := (st1.users.filter (fun u => u.email == email)).head?
    let stUser : Store × User :=
      match found with
      | none =>
          let u : User :=
            { id := freshUserId, googleId := none, email := email,
              name := emailLocalPart email, lastLoginAt := some now,
              loginCount := some 1, createdAt := now, updatedAt := now }
          ({ st1 with users := st1.users ++ [u] }, u)
      | some u0 =>
          let cur : Int := u0.loginCount.getD 0
          ({ st1 with users := st1.users.map (fun x =>
               if x.id == u0.id then
                 { x with lastLoginAt := some now, loginCount := some (cur + 1) }
               else x) }, u0)
    let st2 := stUser.1
    let user := stUser.2
    match JWTService.signAccessToken secret now { userId := user.id, email := user.email } with
    | .error e => (st2, .error e)
    | .ok tok =>
        (st2, .ok { user := user, accessToken := tok, refreshToken := freshRefreshToken })

end AuthController

/-- One inbound operation of the system, with every externally produced value
(identity, fresh ids and tokens, clock reading) as payload. -/
inductive Op where
  | googleCallback (sub email : String) (name : Option String) (now : Nat)
      (uid sid tok : String) (dev : Option DeviceInfo) (ip : Option String)
  | refresh (presented : String) (now : Nat) (tok : String)
      (dev : Option DeviceInfo) (ip : Option String)
  | logout (authUserId : Option String) (atk : Option AccessToken)
  | requestCode (email freshId code : String) (now : Nat)
  | verifyEmail (email code : String) (now : Nat) (uid tok : String)
  | authenticate (t : AccessToken) (now : Nat)
  | cleanup (now : Nat)

/-- Whole-process state: the store plus the in-memory token blacklist. -/
structure SysState where
  store : Store
  blacklist : List AccessToken

/-- State transition of one operation (responses dropped);
`authenticate` (the `verifyAccessToken` call of the middleware) is read-only. -/
def runOp (secret : String) (op : Op) (s : SysState) : SysState :=
  match op with
  | .googleCallback sub email name now uid sid tok dev ip =>
      { s with store := (AuthController.googleCallback secret s.store sub email name
                          now uid sid tok dev ip).1 }
  | .refresh presented now tok dev ip =>
      { s with store := (AuthController.refreshTokenOp secret s.store presented now
                          tok dev ip).1 }
  | .logout authUserId atk =>
      let r := AuthController.logout s.store s.blacklist authUserId atk
      { store := r.1, blacklist := r.2.1 }
  | .requestCode email freshId code now =>
      { s with store := { s.store with verificationCodes :=
          (EmailService.sendVerificationCode s.store.verificationCodes email
            freshId code now).1 } }
  | .verifyEmail email code now uid tok =>
      { s with store := (AuthController.verifyEmailCode secret s.store email code
                          now uid tok).1 }
  | .authenticate _ _ => s
  | .cleanup now =>
      { s with store := { s.store with verificationCodes :=
          EmailService.cleanupExpiredCodes s.store.verificationCodes now } }

/-- Run a sequence of operations. -/
def runOps (secret : String) (ops : List Op) (s : SysState) : SysState :=
  ops.foldl (fun acc op => runOp secret op acc) s

/-! Concrete fixtures used by counterexamples and witnesses. -/

/-- An unused, unexpired verification code for `a@b.com`. -/
def c1Code : VerificationCode :=
  { id := "vc1", email := "a@b.com", code := "123456", expiresAt := 1000 }

/-- Store holding only `c1Code`: fresh process, email-code login about to run. -/
def c1Store : Store := { verificationCodes := [c1Code] }

/-- The user row the email-code login path creates for `a@b.com` at time 1. -/
def c1User : User :=
  { id := "u1", email := "a@b.com", name := "a", lastLoginAt := some 1,
    loginCount := some 1, createdAt := 1, updatedAt := 1 }

/-- The access token minted by that login. -/
def c1Token : AccessToken :=
  { payload := { userId := "u1", email := "a@b.com" }, iat := 1,
    exp := 1 + accessTokenLifetimeMs, secret := "k" }

/-- A well-formed payload with non-empty claims. -/
def c2Payload : TokenPayload := { userId := "u1", email := "a@b" }

/-- A token over `c2Payload` signed at time 0 with secret `k`. -/
def c2Token : AccessToken :=
  { payload := c2Payload, iat := 0, exp := accessTokenLifetimeMs, secret := "k" }

/-- A user owning the session of the C4 scenario. -/
def c4User : User := { id := "u", email := "e@x", name := "n" }

/-- A session whose refresh token `T` expires exactly at time 100. -/
def c4Session : Session :=
  { id := "s1", userId := "u", refreshToken := "T", expiresAt := 100 }

/-- Store holding `c4User` and `c4Session`. -/
def c4Store : Store := { users := [c4User], sessions := [c4Session] }

/-- Row `c4Session` after the rotation the refresh path performs at time 100. -/
def c4Rotated : Session :=
  { id := "s1", userId := "u", refreshToken := "T2",
    expiresAt := 100 + refreshTokenLifetimeMs, lastUsedAt := some 100 }

/-- First of two stored rows carrying the same (email, code) pair. -/
def c5RowA : VerificationCode :=
  { id := "i1", email := "a@b", code := "111111", expiresAt := 100 }

/-- Second stored row with the same (email, code) pair as `c5RowA`. -/
def c5RowB : VerificationCode :=
  { id := "i2", email := "a@b", code := "111111", expiresAt := 100 }

/-- A single stored verification-code row (unique match). -/
def c5Row : VerificationCode :=
  { id := "i9", email := "w@x", code := "222222", expiresAt := 100 }

/-- A payload carrying an extra claim besides `userId`/`email`. -/
def c6Payload : TokenPayload :=
  { userId := "u7", email := "c6@x", extra := [("role", "admin")] }

/-- The token `signAccessToken` produces from `c6Payload` at time 5. -/
def c6Token : AccessToken :=
  { payload := c6Payload, iat := 5, exp := 5 + accessTokenLifetimeMs, secret := "s6" }

/-- User of the C3 rotation witness scenario. -/
def w3User : User := { id := "u3", email := "w3@x", name := "n3" }

/-- Unexpired session of `w3User` holding refresh token `T`. -/
def w3Session : Session :=
  { id := "s3", userId := "u3", refreshToken := "T", expiresAt := 50 }

/-- Store for the C3 rotation witness. -/
def w3Store : Store := { users := [w3User], sessions := [w3Session] }

/-- Users of the C7 logout witness: `u7a` holds two sessions, `u7b` one. -/
def w7UserA : User := { id := "u7a", email := "a7@x", name := "a7" }

/-- The other user of the C7 logout witness. -/
def w7UserB : User := { id := "u7b", email := "b7@x", name := "b7" }

/-- First session of `w7UserA`. -/
def w7Sess1 : Session :=
  { id := "s71", userId := "u7a", refreshToken := "TA1", expiresAt := 500 }

/-- Second session of `w7UserA` (another device). -/
def w7Sess2 : Session :=
  { id := "s72", userId := "u7a", refreshToken := "TA2", expiresAt := 500 }

/-- Session of `w7UserB`, untouched when `w7UserA` logs out. -/
def w7Sess3 : Session :=
  { id := "s73", userId := "u7b", refreshToken := "TB1", expiresAt := 500 }

/-- Store for the C7 logout witness. -/
def w7Store : Store :=
  { users := [w7UserA, w7UserB], sessions := [w7Sess1, w7Sess2, w7Sess3] }

/-- Row inserted by the C10 witness request. -/
def w10Row : VerificationCode :=
  { id := "i10", email := "t@x", code := "333333",
    expiresAt := verificationCodeLifetimeMs, used := false, createdAt := 0 }

/-! Helper lemmas about the embedded operations. -/

/-- The head of a filtered list is a member satisfying the predicate. -/
theorem mem_of_filter_head {α} {l : List α} {p : α → Bool} {a : α}
    (h : (l.filter p).head? = some a) : a ∈ l ∧ p a = true := by
  have ha : a ∈ l.filter p := by
    cases hf : l.filter p with
    | nil => simp [hf] at h
    | cons b t => rw [hf] at h; simp at h; simp [hf, h]
  exact List.mem_filter.mp ha

/-- Lemma: `refreshLookup` returns the first token-matching session joined with its
user row. -/
theorem refreshLookup_eq_some {st : Store} {T : String} {sess : Session} {u : User}
    (h1 : (st.sessions.filter (fun s => s.refreshToken == T)).head? = some sess)
    (h2 : st.users.find? (fun x => x.id == sess.userId) = some u) :
    AuthController.refreshLookup st T = some (sess, u) := by
  unfold AuthController.refreshLookup
  cases hf : st.sessions.filter (fun s => s.refreshToken == T) with
  | nil => simp [hf] at h1
  | cons a t =>
      rw [hf] at h1
      simp at h1
      subst h1
      simp [List.filterMap_cons, h2]

/-- When no stored session carries the presented token, `refreshLookup` is
empty. -/
theorem refreshLookup_eq_none {st : Store} {T : String}
    (h : ∀ x ∈ st.sessions, x.refreshToken ≠ T) :
    AuthController.refreshLookup st T = none := by
  unfold AuthController.refreshLookup
  have hf : st.sessions.filter (fun s => s.refreshToken == T) = [] :=
    List.filter_eq_nil_iff.mpr (fun x hx => by simpa using h x hx)
  simp [hf]

/-- A failed refresh (token unknown) leaves the store unchanged and returns
`INVALID_REFRESH_TOKEN`. -/
theorem refreshTokenOp_invalid {secret : String} {st : Store} {T : String}
    {now : Nat} {T2 : String} {dev : Option DeviceInfo} {ip : Option String}
    (hT : T ≠ "") (h : ∀ x ∈ st.sessions, x.refreshToken ≠ T) :
    AuthController.refreshTokenOp secret st T now T2 dev ip =
      (st, .error .invalidRefreshToken) := by
  unfold AuthController.refreshTokenOp
  rw [if_neg hT, refreshLookup_eq_none h]

/-- After mapping the rotation over the sessions, no row carries the old
token any more. -/
theorem rotate_filter_old_nil (l : List Session) (T T2 : String) (now : Nat)
    (dev : Option DeviceInfo) (ip : Option String) (hne : T2 ≠ T) :
    (l.map (AuthController.rotateSession T T2 now dev ip)).filter
      (fun s => s.refreshToken == T) = [] := by
  induction l with
  | nil => rfl
  | cons a l ih =>
      simp only [List.map_cons, List.filter_cons]
      cases h : a.refreshToken == T with
      | true => simp [AuthController.rotateSession, h, hne, ih]
      | false => simp [AuthController.rotateSession, h, ih]

/-- When the new token was carried by no stored row, the rows carrying it
after the rotation are exactly the rotated images of the rows that carried
the old one. -/
theorem rotate_filter_new (l : List Session) (T T2 : String) (now : Nat)
    (dev : Option DeviceInfo) (ip : Option String)
    (hfresh : ∀ x ∈ l, x.refreshToken ≠ T2) :
    (l.map (AuthController.rotateSession T T2 now dev ip)).filter
        (fun s => s.refreshToken == T2) =
      (l.filter (fun s => s.refreshToken == T)).map
        (AuthController.rotateSession T T2 now dev ip) := by
  induction l with
  | nil => rfl
  | cons a l ih =>
      have ha : a.refreshToken ≠ T2 := hfresh a (by simp)
      have hl : ∀ x ∈ l, x.refreshToken ≠ T2 := fun x hx => hfresh x (by simp [hx])
      simp only [List.map_cons, List.filter_cons]
      cases h : a.refreshToken == T with
      | true => simp [AuthController.rotateSession, h, ih hl]
      | false => simp [AuthController.rotateSession, h, ha, ih hl]

/-- A refresh call that finds an unexpired session for a user with non-empty
identity succeeds, rotating every token-matching session row in place. -/
theorem refreshTokenOp_success (secret : String) (st : Store) (T : String) (now : Nat)
    (T2 : String) (dev : Option DeviceInfo) (ip : Option String)
    (sess : Session) (u : User) (hT : T ≠ "")
    (h1 : (st.sessions.filter (fun s => s.refreshToken == T)).head? = some sess)
    (h2 : st.users.find? (fun x => x.id == sess.userId) = some u)
    (hexp : ¬ now > sess.expiresAt) (hu : u.id ≠ "") (hm : u.email ≠ "") :
    AuthController.refreshTokenOp secret st T now T2 dev ip =
      ({ st with sessions :=
           st.sessions.map (AuthController.rotateSession T T2 now dev ip) },
       .ok { accessToken := { payload := { userId := u.id, email := u.email },
                              iat := now, exp := now + accessTokenLifetimeMs,
                              secret := secret },
             refreshToken := T2 }) := by
  unfold AuthController.refreshTokenOp
  rw [if_neg hT, refreshLookup_eq_some h1 h2]
  simp [hexp, JWTService.signAccessToken, hu, hm]

/-- A row matching the verification query at a later time also matches it at
any earlier time (only the expiry bound involves the clock). -/
theorem vcMatches_mono {e c : String} {now now2 : Nat} (h : now ≤ now2)
    {r : VerificationCode} (hm : EmailService.vcMatches e c now2 r = true) :
    EmailService.vcMatches e c now r = true := by
  simp only [EmailService.vcMatches, Bool.and_eq_true, beq_iff_eq,
    decide_eq_true_eq] at hm ⊢
  exact ⟨⟨⟨hm.1.1.1, hm.1.1.2⟩, hm.1.2⟩, lt_of_le_of_lt h hm.2⟩

/-- The login-stat update of the federated path changes `lastLoginAt` and
`loginCount` only; in particular it preserves the email column. -/
theorem loginStatUpdate_email (uid : String) (now : Nat) (x : User) :
    (if x.id == uid then
       { x with lastLoginAt := some now, loginCount := x.loginCount.map (· + 1) }
     else x).email = x.email := by
  split <;> rfl

/-- No operation of the system removes an entry from the blacklist. -/
theorem runOp_blacklist_mono (secret : String) (op : Op) (s : SysState)
    (t : AccessToken) (h : t ∈ s.blacklist) : t ∈ (runOp secret op s).blacklist := by
  cases op with
  | googleCallback sub email name now uid sid tok dev ip => exact h
  | refresh presented now tok dev ip => exact h
  | requestCode email freshId code now => exact h
  | verifyEmail email code now uid tok => exact h
  | authenticate tk now => exact h
  | cleanup now => exact h
  | logout authUserId atk =>
      cases authUserId with
      | none => exact h
      | some uid =>
          by_cases hu : uid = ""
          · simp only [runOp, AuthController.logout, hu, if_pos]
            exact h
          · cases atk with
            | none =>
                simp only [runOp, AuthController.logout, if_neg hu]
                exact h
            | some tk =>
                simp only [runOp, AuthController.logout, if_neg hu,
                  JWTService.blacklistToken]
                exact List.mem_cons_of_mem tk h

/-! Theorems settling the claims. -/

/-- C1: counter-evidence, evaluated at the failing input.  With a fresh store
holding one valid verification code, the email-code login completes
successfully — it returns an access token and the refresh token `"R"` — yet
the resulting store contains no session row at all, and a subsequent
`refresh("R")` fails with `INVALID_REFRESH_TOKEN`.  The federated path
persists a session; the email-code path does not, contradicting the
canonical contract of the spec that every successful login persists a Session
enabling later refresh. -/
theorem emailCodeLogin_returnsTokens_butPersistsNoSession :
    (AuthController.verifyEmailCode "k" c1Store "a@b.com" "123456" 1 "u1" "R").2 =
      .ok { user := c1User, accessToken := c1Token, refreshToken := "R" } ∧
    (AuthController.verifyEmailCode "k" c1Store "a@b.com" "123456" 1 "u1" "R").1.sessions
      = [] ∧
    AuthController.refreshTokenOp "k"
        (AuthController.verifyEmailCode "k" c1Store "a@b.com" "123456" 1 "u1" "R").1
        "R" 2 "R2" none none =
      ((AuthController.verifyEmailCode "k" c1Store "a@b.com" "123456" 1 "u1" "R").1,
       .error .invalidRefreshToken) :=
  ⟨rfl, rfl, rfl⟩

/-- C2: counterexample.  `c2Token` is well formed, unexpired at time 1, and
carries non-empty claims, yet `verifyAccessToken` fails with `TOKEN_REVOKED`
exactly when the token sits in the blacklist — its result does depend on the
Revocation Registry, contradicting the claim. -/
theorem verifyAccessToken_consultsBlacklist_cex :
    JWTService.verifyAccessToken [c2Token] "k" 1 c2Token = .error .tokenRevoked ∧
    JWTService.verifyAccessToken [] "k" 1 c2Token = .ok c2Payload :=
  ⟨rfl, rfl⟩

/-- C2 (amended): `verifyAccessToken` does consult the Revocation Registry:
on a well-formed, unexpired token carrying non-empty `userId` and `email`
claims it returns the claims when the token has not been blacklisted, and
fails with `TOKEN_REVOKED` when it has. -/
theorem verifyAccessToken_revocationGate (bl : List AccessToken) (secret : String)
    (now : Nat) (t : AccessToken) (hs : t.secret = secret) (he : now < t.exp)
    (hu : t.payload.userId ≠ "") (hm : t.payload.email ≠ "") :
    JWTService.verifyAccessToken bl secret now t =
      if JWTService.isTokenBlacklisted bl t then .error .tokenRevoked
      else .ok t.payload := by
  unfold JWTService.verifyAccessToken
  cases hbl : JWTService.isTokenBlacklisted bl t with
  | true => simp [hbl]
  | false => simp [hbl, hs, Nat.not_le.mpr he, hu, hm]

/-- C2 (amended) witness at the concrete token `c2Token`. -/
theorem verifyAccessToken_revocationGate_witness :
    JWTService.verifyAccessToken [] "k" 1 c2Token =
      (if JWTService.isTokenBlacklisted [] c2Token then .error .tokenRevoked
       else .ok c2Token.payload) ∧
    JWTService.verifyAccessToken [c2Token] "k" 1 c2Token =
      (if JWTService.isTokenBlacklisted [c2Token] c2Token then .error .tokenRevoked
       else .ok c2Token.payload) :=
  ⟨verifyAccessToken_revocationGate [] "k" 1 c2Token rfl (by decide) (by decide)
      (by decide),
   verifyAccessToken_revocationGate [c2Token] "k" 1 c2Token rfl (by decide) (by decide)
      (by decide)⟩

/-- C4: counterexample.  `c4Session.expiresAt = 100`; a refresh presented at
`now = 100` — the boundary instant the claim says must fail with
`RefreshTokenExpired` — instead succeeds and rotates the session row: the
code compares with strict `>`. -/
theorem refresh_atExactExpiry_succeeds_cex :
    c4Session.expiresAt = 100 ∧
    AuthController.refreshTokenOp "k" c4Store "T" 100 "T2" none none =
      ({ users := [c4User], sessions := [c4Rotated] },
       .ok { accessToken := { payload := { userId := "u", email := "e@x" },
                              iat := 100, exp := 100 + accessTokenLifetimeMs,
                              secret := "k" },
             refreshToken := "T2" }) :=
  ⟨rfl, rfl⟩

/-- C4 (amended): a refresh presenting a token that matches a stored Session
fails with `RefreshTokenExpired` precisely when `now > expiresAt` (strictly
after expiry; at `now = expiresAt` the call still succeeds), and on that
failure the store — the Session row included — is left entirely unchanged. -/
theorem refresh_strictlyPastExpiry_fails (secret : String) (st : Store) (T : String)
    (now : Nat) (T2 : String) (dev : Option DeviceInfo) (ip : Option String)
    (sess : Session) (u : User) (hT : T ≠ "")
    (h1 : (st.sessions.filter (fun s => s.refreshToken == T)).head? = some sess)
    (h2 : st.users.find? (fun x => x.id == sess.userId) = some u)
    (hexp : now > sess.expiresAt) :
    AuthController.refreshTokenOp secret st T now T2 dev ip =
      (st, .error .refreshTokenExpired) := by
  unfold AuthController.refreshTokenOp
  rw [if_neg hT, refreshLookup_eq_some h1 h2]
  simp [hexp]

/-- C4 (amended) witness: the same store one millisecond past expiry. -/
theorem refresh_strictlyPastExpiry_fails_witness :
    AuthController.refreshTokenOp "k" c4Store "T" 101 "T2" none none =
      (c4Store, .error .refreshTokenExpired) :=
  refresh_strictlyPastExpiry_fails "k" c4Store "T" 101 "T2" none none c4Session c4User
    (by decide) (by decide) (by decide) (by decide)

/-- C3: refresh rotation.  For a stored unexpired Session holding token `T`
(the first such row, joined to its user), with the generated token `T1` fresh
and distinct from `T`: the first `refresh(T)` succeeds and returns `T1`, the
Session row now holds `T1` and no stored row holds `T` any more; a second
`refresh(T)` fails with `INVALID_REFRESH_TOKEN` leaving the store unchanged;
and `refresh(T1)` succeeds (within the renewed 7-day lifetime). -/
theorem refresh_rotation (secret : String) (st : Store) (T T1 T2 T3 : String)
    (now1 now2 now3 : Nat) (dev1 dev2 dev3 : Option DeviceInfo)
    (ip1 ip2 ip3 : Option String) (sess : Session) (u : User)
    (hT : T ≠ "") (hT1 : T1 ≠ "")
    (h1 : (st.sessions.filter (fun s => s.refreshToken == T)).head? = some sess)
    (h2 : st.users.find? (fun x => x.id == sess.userId) = some u)
    (hexp : now1 ≤ sess.expiresAt) (hu : u.id ≠ "") (hm : u.email ≠ "")
    (hdist : T1 ≠ T) (hfresh : ∀ x ∈ st.sessions, x.refreshToken ≠ T1)
    (hnow3 : now3 ≤ now1 + refreshTokenLifetimeMs) :
    (AuthController.refreshTokenOp secret st T now1 T1 dev1 ip1).2 =
      .ok { accessToken := { payload := { userId := u.id, email := u.email },
                             iat := now1, exp := now1 + accessTokenLifetimeMs,
                             secret := secret },
            refreshToken := T1 } ∧
    AuthController.rotateSession T T1 now1 dev1 ip1 sess ∈
      (AuthController.refreshTokenOp secret st T now1 T1 dev1 ip1).1.sessions ∧
    (∀ x ∈ (AuthController.refreshTokenOp secret st T now1 T1 dev1 ip1).1.sessions,
       x.refreshToken ≠ T) ∧
    AuthController.refreshTokenOp secret
        (AuthController.refreshTokenOp secret st T now1 T1 dev1 ip1).1
        T now2 T2 dev2 ip2 =
      ((AuthController.refreshTokenOp secret st T now1 T1 dev1 ip1).1,
       .error .invalidRefreshToken) ∧
    (AuthController.refreshTokenOp secret
        (AuthController.refreshTokenOp secret st T now1 T1 dev1 ip1).1
        T1 now3 T3 dev3 ip3).2 =
      .ok { accessToken := { payload := { userId := u.id, email := u.email },
                             iat := now3, exp := now3 + accessTokenLifetimeMs,
                             secret := secret },
            refreshToken := T3 } := by
  have hexp1 : ¬ now1 > sess.expiresAt := Nat.not_lt.mpr hexp
  have e1 := refreshTokenOp_success secret st T now1 T1 dev1 ip1 sess u
    hT h1 h2 hexp1 hu hm
  have hsessTok : (sess.refreshToken == T) = true := (mem_of_filter_head h1).2
  have hrot : AuthController.rotateSession T T1 now1 dev1 ip1 sess =
      { sess with refreshToken := T1,
                  expiresAt := JWTService.getRefreshTokenExpiry now1,
                  lastUsedAt := some now1, deviceInfo := dev1, ipAddress := ip1 } := by
    simp [AuthController.rotateSession, hsessTok]
  have hnil := rotate_filter_old_nil st.sessions T T1 now1 dev1 ip1 hdist
  have hnoT : ∀ x ∈ (st.sessions.map
      (AuthController.rotateSession T T1 now1 dev1 ip1)), x.refreshToken ≠ T := by
    intro x hx
    have := List.filter_eq_nil_iff.mp hnil x hx
    simpa using this
  refine ⟨by rw [e1], ?_, ?_, ?_, ?_⟩
  · rw [e1]
    exact List.mem_map.mpr ⟨sess, (mem_of_filter_head h1).1, rfl⟩
  · rw [e1]
    exact hnoT
  · rw [e1]
    exact refreshTokenOp_invalid hT (by simpa using hnoT)
  · rw [e1]
    have hfil : ((st.sessions.map
          (AuthController.rotateSession T T1 now1 dev1 ip1)).filter
        (fun s => s.refreshToken == T1)).head? =
        some (AuthController.rotateSession T T1 now1 dev1 ip1 sess) := by
      rw [rotate_filter_new st.sessions T T1 now1 dev1 ip1 hfresh,
        List.head?_map, h1]
      rfl
    have hfind : st.users.find? (fun x =>
        x.id == (AuthController.rotateSession T T1 now1 dev1 ip1 sess).userId) = some u := by
      rw [hrot]
      exact h2
    have hexp3 : ¬ now3 >
        (AuthController.rotateSession T T1 now1 dev1 ip1 sess).expiresAt := by
      rw [hrot]
      exact Nat.not_lt.mpr hnow3
    have e3 := refreshTokenOp_success secret
      ({ st with sessions :=
         st.sessions.map (AuthController.rotateSession T T1 now1 dev1 ip1) })
      T1 now3 T3 dev3 ip3 (AuthController.rotateSession T T1 now1 dev1 ip1 sess) u
      hT1 hfil hfind hexp3 hu hm
    rw [e3]

/-- C3 witness: the concrete store `w3Store`, rotating `"T"` to `"T1"` at
time 10, replaying `"T"` at time 11, then refreshing with `"T1"` at 12. -/
theorem refresh_rotation_witness :
    (AuthController.refreshTokenOp "k" w3Store "T" 10 "T1" none none).2 =
      .ok { accessToken := { payload := { userId := "u3", email := "w3@x" },
                             iat := 10, exp := 10 + accessTokenLifetimeMs,
                             secret := "k" },
            refreshToken := "T1" } ∧
    AuthController.rotateSession "T" "T1" 10 none none w3Session ∈
      (AuthController.refreshTokenOp "k" w3Store "T" 10 "T1" none none).1.sessions ∧
    (∀ x ∈ (AuthController.refreshTokenOp "k" w3Store "T" 10 "T1" none none).1.sessions,
       x.refreshToken ≠ "T") ∧
    AuthController.refreshTokenOp "k"
        (AuthController.refreshTokenOp "k" w3Store "T" 10 "T1" none none).1
        "T" 11 "T2x" none none =
      ((AuthController.refreshTokenOp "k" w3Store "T" 10 "T1" none none).1,
       .error .invalidRefreshToken) ∧
    (AuthController.refreshTokenOp "k"
        (AuthController.refreshTokenOp "k" w3Store "T" 10 "T1" none none).1
        "T1" 12 "T3x" none none).2 =
      .ok { accessToken := { payload := { userId := "u3", email := "w3@x" },
                             iat := 12, exp := 12 + accessTokenLifetimeMs,
                             secret := "k" },
            refreshToken := "T3x" } :=
  refresh_rotation "k" w3Store "T" "T1" "T2x" "T3x" 10 11 12 none none none
    none none none w3Session w3User (by decide) (by decide) (by decide) (by decide)
    (by decide) (by decide) (by decide) (by decide) (by decide) (by decide)

/-- C5: counterexample.  With two stored rows both matching
`("a@b", "111111", used=false, unexpired)` — nothing prevents this, since
`sendVerificationCode` only inserts and the code space is 6 digits — the
first `verifyCode` returns true, and the second `verifyCode` with the same
arguments returns true again, not false as the claim states. -/
theorem verifyCode_duplicateRows_secondCallTrue_cex :
    (EmailService.verifyCode [c5RowA, c5RowB] "a@b" "111111" 0).2 = true ∧
    (EmailService.verifyCode
        (EmailService.verifyCode [c5RowA, c5RowB] "a@b" "111111" 0).1
        "a@b" "111111" 0).2 = true :=
  ⟨rfl, rfl⟩

/-- C5 (amended): when the first stored row matching
`(e, c, used=false, expiresAt > now)` is `r`, `verifyCode(e, c)` returns true
and marks `r` (and only id-`r` rows) `used = true`, leaving every other row
unchanged; a second `verifyCode(e, c)` call afterwards returns false
*provided* no other stored row also matches `(e, c)`; and when no row
matches, `verifyCode` returns false and leaves the store unchanged. -/
theorem verifyCode_singleUse :
    (∀ (cs : List VerificationCode) (e c : String) (now now2 : Nat)
       (r : VerificationCode), now ≤ now2 →
       (cs.filter (EmailService.vcMatches e c now)).head? = some r →
       (EmailService.verifyCode cs e c now).2 = true ∧
       { r with used := true } ∈ (EmailService.verifyCode cs e c now).1 ∧
       (∀ x ∈ cs, x.id ≠ r.id → x ∈ (EmailService.verifyCode cs e c now).1) ∧
       ((∀ x ∈ cs, EmailService.vcMatches e c now x = true → x.id = r.id) →
         (EmailService.verifyCode (EmailService.verifyCode cs e c now).1
           e c now2).2 = false)) ∧
    (∀ (cs : List VerificationCode) (e c : String) (now : Nat),
       (cs.filter (EmailService.vcMatches e c now)).head? = none →
       EmailService.verifyCode cs e c now = (cs, false)) := by
  constructor
  · intro cs e c now now2 r hn hfirst
    have e1 : EmailService.verifyCode cs e c now =
        (cs.map (fun x => if x.id == r.id then { x with used := true } else x),
         true) := by
      unfold EmailService.verifyCode
      rw [hfirst]
    obtain ⟨hrmem, hrmatch⟩ := mem_of_filter_head hfirst
    refine ⟨by rw [e1], ?_, ?_, ?_⟩
    · rw [e1]
      exact List.mem_map.mpr ⟨r, hrmem, by simp⟩
    · intro x hx hne
      rw [e1]
      exact List.mem_map.mpr ⟨x, hx, by simp [hne]⟩
    · intro huniq
      rw [e1]
      have hnil : (cs.map (fun x =>
          if x.id == r.id then { x with used := true } else x)).filter
            (EmailService.vcMatches e c now2) = [] := by
        apply List.filter_eq_nil_iff.mpr
        intro y hy
        obtain ⟨x, hx, rfl⟩ := List.mem_map.mp hy
        by_cases hid : x.id = r.id
        · simp [hid, EmailService.vcMatches]
        · have hxid : (x.id == r.id) = false := by simp [hid]
          rw [hxid]
          simp only [Bool.false_eq_true, if_false]
          intro hmt
          exact hid (huniq x hx (vcMatches_mono hn hmt))
      unfold EmailService.verifyCode
      rw [hnil]
      rfl
  · intro cs e c now h
    unfold EmailService.verifyCode
    rw [h]

/-- C5 (amended) witness at a store holding the single matching row
`c5Row`, plus the no-match case at the empty store. -/
theorem verifyCode_singleUse_witness :
    (EmailService.verifyCode [c5Row] "w@x" "222222" 0).2 = true ∧
    { c5Row with used := true } ∈
      (EmailService.verifyCode [c5Row] "w@x" "222222" 0).1 ∧
    (EmailService.verifyCode (EmailService.verifyCode [c5Row] "w@x" "222222" 0).1
      "w@x" "222222" 1).2 = false ∧
    EmailService.verifyCode [] "w@x" "222222" 0 = ([], false) :=
  ⟨(verifyCode_singleUse.1 [c5Row] "w@x" "222222" 0 1 c5Row (by decide)
      (by decide)).1,
   (verifyCode_singleUse.1 [c5Row] "w@x" "222222" 0 1 c5Row (by decide)
      (by decide)).2.1,
   (verifyCode_singleUse.1 [c5Row] "w@x" "222222" 0 1 c5Row (by decide)
      (by decide)).2.2.2 (by decide),
   verifyCode_singleUse.2 [] "w@x" "222222" 0 (by decide)⟩

/-- C6: round trip.  For any claims with non-empty `userId` and `email`,
verifying the token produced by `signAccessToken` — with the same secret,
before the 15-minute lifetime elapses, and with the token not previously
revoked — succeeds and returns exactly the input claims, extra claims
included. -/
theorem signVerify_roundtrip (secret : String) (signTime verifyTime : Nat)
    (p : TokenPayload) (bl : List AccessToken) (t : AccessToken)
    (hu : p.userId ≠ "") (hm : p.email ≠ "")
    (hsign : JWTService.signAccessToken secret signTime p = .ok t)
    (hbl : JWTService.isTokenBlacklisted bl t = false)
    (htime : verifyTime < signTime + accessTokenLifetimeMs) :
    JWTService.verifyAccessToken bl secret verifyTime t = .ok p := by
  unfold JWTService.signAccessToken at hsign
  rw [if_neg (by simp [hu, hm])] at hsign
  injection hsign with ht
  subst ht
  unfold JWTService.verifyAccessToken
  simp [hbl, hu, hm, Nat.not_le.mpr htime]

/-- C6 witness: the concrete payload `c6Payload` (with an extra claim),
signed at time 5 and verified at time 6. -/
theorem signVerify_roundtrip_witness :
    JWTService.verifyAccessToken [] "s6" 6 c6Token = .ok c6Payload :=
  signVerify_roundtrip "s6" 5 6 c6Payload [] c6Token (by decide) (by decide)
    rfl (by decide) (by decide)

/-- C7: logout deletes every session of the authenticated user — exactly the
rows whose `userId` matches, all devices at once — leaving sessions of other
users in place, and a subsequent refresh with any token carried only by
sessions of the logged-out user fails with `INVALID_REFRESH_TOKEN`. -/
theorem logout_deletesAllUserSessions (st : Store) (bl : List AccessToken)
    (uid : String) (atk : Option AccessToken) (secret T T2 : String) (now : Nat)
    (dev : Option DeviceInfo) (ip : Option String) (sess : Session)
    (huid : uid ≠ "") (hmem : sess ∈ st.sessions) (howner : sess.userId = uid)
    (htok : sess.refreshToken = T)
    (honly : ∀ x ∈ st.sessions, x.refreshToken = T → x.userId = uid)
    (hT : T ≠ "") :
    (AuthController.logout st bl (some uid) atk).2.2 = .ok () ∧
    (∀ x, x ∈ (AuthController.logout st bl (some uid) atk).1.sessions ↔
       x ∈ st.sessions ∧ x.userId ≠ uid) ∧
    AuthController.refreshTokenOp secret
        (AuthController.logout st bl (some uid) atk).1 T now T2 dev ip =
      ((AuthController.logout st bl (some uid) atk).1,
       .error .invalidRefreshToken) := by
  have e1 : AuthController.logout st bl (some uid) atk =
      ({ st with sessions := st.sessions.filter (fun s => !(s.userId == uid)) },
       (match atk with
        | some t => JWTService.blacklistToken bl t
        | none => bl),
       .ok ()) := by
    unfold AuthController.logout
    dsimp only
    rw [if_neg huid]
  refine ⟨by rw [e1], ?_, ?_⟩
  · intro x
    rw [e1]
    simp [List.mem_filter]
  · rw [e1]
    apply refreshTokenOp_invalid hT
    intro x hx
    simp only [List.mem_filter, Bool.not_eq_eq_eq_not, Bool.not_true,
      beq_eq_false_iff_ne, ne_eq] at hx
    intro hxT
    exact hx.2 (honly x hx.1 hxT)

/-- C7 witness: `w7UserA` holds two sessions, `w7UserB` one; logging out
`u7a` succeeds and replaying the first token of `u7a` fails. -/
theorem logout_deletesAllUserSessions_witness :
    (AuthController.logout w7Store [] (some "u7a") none).2.2 = .ok () ∧
    AuthController.refreshTokenOp "k"
        (AuthController.logout w7Store [] (some "u7a") none).1 "TA1" 20 "TN"
        none none =
      ((AuthController.logout w7Store [] (some "u7a") none).1,
       .error .invalidRefreshToken) :=
  ⟨(logout_deletesAllUserSessions w7Store [] "u7a" none "k" "TA1" "TN" 20 none
      none w7Sess1 (by decide) (by decide) (by decide) (by decide) (by decide)
      (by decide)).1,
   (logout_deletesAllUserSessions w7Store [] "u7a" none "k" "TA1" "TN" 20 none
      none w7Sess1 (by decide) (by decide) (by decide) (by decide) (by decide)
      (by decide)).2.2⟩

/-- C8: running the federated login twice with the same external identity,
starting from a store with no user at that email: both runs succeed, after
the first run exactly one user row carries that email — created with
`loginCount = 1` and `lastLoginAt = now1` — and after the second run still
exactly that one row, with `loginCount = 2` and `lastLoginAt = now2`. -/
theorem federatedLogin_twice_oneUser (secret : String) (st : Store)
    (sub1 sub2 : String) (e : String) (name1 name2 : Option String)
    (now1 now2 : Nat) (uid1 uid2 sid1 sid2 T1 T2 : String)
    (dev1 dev2 : Option DeviceInfo) (ip1 ip2 : Option String)
    (hnone : ∀ u ∈ st.users, u.email ≠ e) (he : e ≠ "") (huid : uid1 ≠ "") :
    (AuthController.googleCallback secret st sub1 e name1 now1 uid1 sid1 T1
        dev1 ip1).2 =
      .ok { accessToken := { payload := { userId := uid1, email := e },
                             iat := now1, exp := now1 + accessTokenLifetimeMs,
                             secret := secret },
            refreshToken := T1 } ∧
    (AuthController.googleCallback secret st sub1 e name1 now1 uid1 sid1 T1
        dev1 ip1).1.users.filter (fun u => u.email == e) =
      [{ id := uid1, googleId := some sub1, email := e, name := name1.getD "",
         lastLoginAt := some now1, loginCount := some 1, createdAt := now1,
         updatedAt := now1 }] ∧
    (AuthController.googleCallback secret
        (AuthController.googleCallback secret st sub1 e name1 now1 uid1 sid1 T1
          dev1 ip1).1
        sub2 e name2 now2 uid2 sid2 T2 dev2 ip2).2 =
      .ok { accessToken := { payload := { userId := uid1, email := e },
                             iat := now2, exp := now2 + accessTokenLifetimeMs,
                             secret := secret },
            refreshToken := T2 } ∧
    (AuthController.googleCallback secret
        (AuthController.googleCallback secret st sub1 e name1 now1 uid1 sid1 T1
          dev1 ip1).1
        sub2 e name2 now2 uid2 sid2 T2 dev2 ip2).1.users.filter
        (fun u => u.email == e) =
      [{ id := uid1, googleId := some sub1, email := e, name := name1.getD "",
         lastLoginAt := some now2, loginCount := some 2, createdAt := now1,
         updatedAt := now1 }] := by
  have hfil : st.users.filter (fun u => u.email == e) = [] :=
    List.filter_eq_nil_iff.mpr (fun u hu => by simpa using hnone u hu)
  have e1 : AuthController.googleCallback secret st sub1 e name1 now1 uid1 sid1 T1
      dev1 ip1 =
      ({ st with
          users := st.users ++
            [{ id := uid1, googleId := some sub1, email := e,
               name := name1.getD "", lastLoginAt := some now1,
               loginCount := some 1, createdAt := now1, updatedAt := now1 }],
          sessions := st.sessions ++
            [{ id := sid1, userId := uid1, refreshToken := T1,
               expiresAt := JWTService.getRefreshTokenExpiry now1,
               deviceInfo := dev1, lastUsedAt := some now1, ipAddress := ip1,
               createdAt := now1 }] },
       .ok { accessToken := { payload := { userId := uid1, email := e },
                              iat := now1, exp := now1 + accessTokenLifetimeMs,
                              secret := secret },
             refreshToken := T1 }) := by
    unfold AuthController.googleCallback
    rw [hfil]
    simp [JWTService.signAccessToken, huid, he]
  have hfil2 : (st.users ++
      [({ id := uid1, googleId := some sub1, email := e, name := name1.getD "",
          lastLoginAt := some now1, loginCount := some 1, createdAt := now1,
          updatedAt := now1 } : User)]).filter (fun u => u.email == e) =
      [({ id := uid1, googleId := some sub1, email := e, name := name1.getD "",
          lastLoginAt := some now1, loginCount := some 1, createdAt := now1,
          updatedAt := now1 } : User)] := by
    simp [List.filter_append, hfil]
  have e2 : AuthController.googleCallback secret
      ({ st with
          users := st.users ++
            [{ id := uid1, googleId := some sub1, email := e,
               name := name1.getD "", lastLoginAt := some now1,
               loginCount := some 1, createdAt := now1, updatedAt := now1 }],
          sessions := st.sessions ++
            [{ id := sid1, userId := uid1, refreshToken := T1,
               expiresAt := JWTService.getRefreshTokenExpiry now1,
               deviceInfo := dev1, lastUsedAt := some now1, ipAddress := ip1,
               createdAt := now1 }] })
      sub2 e name2 now2 uid2 sid2 T2 dev2 ip2 =
      ({ st with
          users := (st.users ++
            [({ id := uid1, googleId := some sub1, email := e,
                name := name1.getD "", lastLoginAt := some now1,
                loginCount := some 1, createdAt := now1,
                updatedAt := now1 } : User)]).map (fun x : User =>
                 if x.id == uid1 then
                   { x with lastLoginAt := some now2,
                            loginCount := x.loginCount.map (· + 1) }
                 else x),
          sessions := (st.sessions ++
            [{ id := sid1, userId := uid1, refreshToken := T1,
               expiresAt := JWTService.getRefreshTokenExpiry now1,
               deviceInfo := dev1, lastUsedAt := some now1, ipAddress := ip1,
               createdAt := now1 }]) ++
            [{ id := sid2, userId := uid1, refreshToken := T2,
               expiresAt := JWTService.getRefreshTokenExpiry now2,
               deviceInfo := dev2, lastUsedAt := some now2, ipAddress := ip2,
               createdAt := now2 }] },
       .ok { accessToken := { payload := { userId := uid1, email := e },
                              iat := now2, exp := now2 + accessTokenLifetimeMs,
                              secret := secret },
             refreshToken := T2 }) := by
    unfold AuthController.googleCallback
    dsimp only
    rw [hfil2]
    simp [JWTService.signAccessToken, huid, he]
  refine ⟨by rw [e1], by rw [e1]; exact hfil2, by rw [e1, e2], ?_⟩
  rw [e1, e2]
  show ((st.users ++ _).map _).filter _ = _
  rw [List.map_append, List.filter_append]
  have hleft : (st.users.map (fun x : User =>
      if x.id == uid1 then
        { x with lastLoginAt := some now2,
                 loginCount := x.loginCount.map (· + 1) }
      else x)).filter (fun u => u.email == e) = [] := by
    apply List.filter_eq_nil_iff.mpr
    intro y hy
    obtain ⟨x, hx, rfl⟩ := List.mem_map.mp hy
    have hpe := loginStatUpdate_email uid1 now2 x
    simp only [hpe]
    simpa using hnone x hx
  rw [hleft]
  simp

/-- C8 witness: twice through the federated flow for `g@x`, starting from
the empty store. -/
theorem federatedLogin_twice_oneUser_witness :
    (AuthController.googleCallback "k" {} "sub" "g@x" (some "G") 3 "ug" "sg1"
        "TG1" none none).2 =
      .ok { accessToken := { payload := { userId := "ug", email := "g@x" },
                             iat := 3, exp := 3 + accessTokenLifetimeMs,
                             secret := "k" },
            refreshToken := "TG1" } ∧
    (AuthController.googleCallback "k" {} "sub" "g@x" (some "G") 3 "ug" "sg1"
        "TG1" none none).1.users.filter (fun u => u.email == "g@x") =
      [{ id := "ug", googleId := some "sub", email := "g@x", name := "G",
         lastLoginAt := some 3, loginCount := some 1, createdAt := 3,
         updatedAt := 3 }] ∧
    (AuthController.googleCallback "k"
        (AuthController.googleCallback "k" {} "sub" "g@x" (some "G") 3 "ug"
          "sg1" "TG1" none none).1
        "sub" "g@x" (some "G") 4 "ug2" "sg2" "TG2" none none).2 =
      .ok { accessToken := { payload := { userId := "ug", email := "g@x" },
                             iat := 4, exp := 4 + accessTokenLifetimeMs,
                             secret := "k" },
            refreshToken := "TG2" } ∧
    (AuthController.googleCallback "k"
        (AuthController.googleCallback "k" {} "sub" "g@x" (some "G") 3 "ug"
          "sg1" "TG1" none none).1
        "sub" "g@x" (some "G") 4 "ug2" "sg2" "TG2" none none).1.users.filter
        (fun u => u.email == "g@x") =
      [{ id := "ug", googleId := some "sub", email := "g@x", name := "G",
         lastLoginAt := some 4, loginCount := some 2, createdAt := 3,
         updatedAt := 3 }] :=
  federatedLogin_twice_oneUser "k" {} "sub" "sub" "g@x" (some "G") (some "G")
    3 4 "ug" "ug2" "sg1" "sg2" "TG1" "TG2" none none none none
    (by intro u hu; simp at hu) (by decide) (by decide)

/-- C9: the Revocation Registry is monotone.  After `blacklistToken(t)`,
`isTokenBlacklisted(t)` returns true after every subsequent sequence of
operations within the same process: no operation ever removes a blacklist
entry. -/
theorem blacklist_monotone (secret : String) (ops : List Op) (s : SysState)
    (t : AccessToken) :
    JWTService.isTokenBlacklisted
      (runOps secret ops
        { s with blacklist := JWTService.blacklistToken s.blacklist t }).blacklist
      t = true := by
  have key : ∀ (l : List Op) (s1 : SysState), t ∈ s1.blacklist →
      t ∈ (runOps secret l s1).blacklist := by
    intro l
    induction l with
    | nil => intro s1 h; exact h
    | cons op l ih => intro s1 h; exact ih _ (runOp_blacklist_mono secret op s1 t h)
  have hmem : t ∈ (JWTService.blacklistToken s.blacklist t) :=
    List.mem_cons_self t s.blacklist
  exact decide_eq_true (key ops _ hmem)

/-- C10: `sendVerificationCode` is insert-only — it appends one fresh row and
leaves every previously stored row exactly as it was — and `verifyCode`
accepts any stored row that still matches `(e, c, used=false, unexpired)`, so
several outstanding codes for one email coexist until each is used or
expires. -/
theorem requestCode_insertOnly :
    (∀ (cs : List VerificationCode) (email freshId code : String) (now : Nat),
       (EmailService.sendVerificationCode cs email freshId code now).1 =
         cs ++ [({ id := freshId, email := email, code := code,
                   expiresAt := now + verificationCodeLifetimeMs, used := false,
                   createdAt := now } : VerificationCode)]) ∧
    (∀ (cs : List VerificationCode) (e c : String) (now : Nat)
       (r : VerificationCode), r ∈ cs → EmailService.vcMatches e c now r = true →
       (EmailService.verifyCode cs e c now).2 = true) := by
  constructor
  · intro cs email freshId code now
    rfl
  · intro cs e c now r hr hm
    have hmem : r ∈ cs.filter (EmailService.vcMatches e c now) :=
      List.mem_filter.mpr ⟨hr, hm⟩
    cases hf : cs.filter (EmailService.vcMatches e c now) with
    | nil => rw [hf] at hmem; cases hmem
    | cons a tl =>
        unfold EmailService.verifyCode
        rw [hf]
        rfl

/-- C10 witness: one request for `t@x` inserts `w10Row`, which still
verifies at time 1. -/
theorem requestCode_insertOnly_witness :
    (EmailService.sendVerificationCode [] "t@x" "i10" "333333" 0).1 = [w10Row] ∧
    (EmailService.verifyCode [w10Row] "t@x" "333333" 1).2 = true :=
  ⟨by rw [requestCode_insertOnly.1 [] "t@x" "i10" "333333" 0]; rfl,
   requestCode_insertOnly.2 [w10Row] "t@x" "333333" 1 w10Row (by decide)
     (by decide)⟩

end MobileAuth
